import Mathlib

/-!
Verification of the monitoring core of `rust-server-monitoring`
(a Rust host/container CPU watchdog) against its specification.

The Rust sources are shallowly embedded:
 - `f64` CPU percentages become `ℚ` (the code only compares and copies
   them; NaN does not arise in the embedded fragment),
 - machine integers counting bytes become `ℕ`,
 - fallible operations return `Except String _` or take the outcome of
   an external call (container runtime, SMTP transport, address parsing)
   as an explicit oracle argument,
 - timestamps are opaque `ℕ` values.
Every definition is translated from the Rust source file and function
named in its doc comment.
-/

namespace RustServerMonitoring

/-! ## Data model — src/config.rs -/

/-- MonitoringConfig (config.rs, lines 12-17). -/
structure MonitoringConfig where
  cpu_threshold : ℚ
  check_interval : ℕ
  docker_stats_timeout : ℕ
deriving Repr, DecidableEq

/-- EmailConfig (config.rs, lines 19-27). -/
structure EmailConfig where
  enabled : Bool
  smtp_server : String
  smtp_port : ℕ
  sender_email : String
  sender_password : String
  recipient_email : String
deriving Repr, DecidableEq

/-- LoggingConfig (config.rs, lines 29-35). -/
structure LoggingConfig where
  level : String
  file : String
  max_size_mb : ℕ
  backup_count : ℕ
deriving Repr, DecidableEq

/-- Config (config.rs, lines 5-10). -/
structure Config where
  monitoring : MonitoringConfig
  email : EmailConfig
  logging : LoggingConfig
deriving Repr, DecidableEq

/-- Config::default (config.rs, lines 37-61). -/
def Config.default : Config :=
  { monitoring :=
      { cpu_threshold := 80
        check_interval := 300
        docker_stats_timeout := 10 }
    email :=
      { enabled := false
        smtp_server := "smtp.gmail.com"
        smtp_port := 587
        sender_email := ""
        sender_password := ""
        recipient_email := "" }
    logging :=
      { level := "INFO"
        file := "monitoring.log"
        max_size_mb := 10
        backup_count := 5 } }

/-! ## Data model — src/docker_monitor.rs -/

/-- ContainerStats (docker_monitor.rs, lines 11-23). -/
structure ContainerStats where
  id : String
  name : String
  image : String
  status : String
  cpu_usage : ℚ
  memory_usage : ℕ
  memory_limit : ℕ
  memory_percent : ℚ
  ports : List String
  timestamp : ℕ
deriving Repr, DecidableEq

/-- The fields of `bollard::models::ContainerSummary` that the code reads
(docker_monitor.rs, lines 85-93, 119). All are optional in bollard. -/
structure ContainerSummary where
  id : Option String
  names : Option (List String)
  image : Option String
  status : Option String
deriving Repr, DecidableEq

/-- The fields of a one-shot `bollard::container::Stats` sample that the
code reads (docker_monitor.rs, lines 134-135): `memory_stats.usage` and
`memory_stats.limit`, both optional. -/
structure MemoryStatsSample where
  usage : Option ℕ
  limit : Option ℕ
deriving Repr, DecidableEq

/-- A one-shot stats sample as consumed by `calculate_resource_usage`. -/
structure StatsSample where
  memory_stats : MemoryStatsSample
deriving Repr, DecidableEq

/-! ## Host threshold check — src/server_monitor.rs -/

/-- ServerMonitor::check_cpu_threshold (server_monitor.rs, lines 153-164).
The sampled global CPU usage and the configured
`monitoring.cpu_threshold` are passed explicitly; the function returns
the pair `(triggered, cpu_usage)` exactly as the source does. -/
def check_cpu_threshold (cpu_usage threshold : ℚ) : Bool × ℚ :=
  if cpu_usage > threshold then
    (true, cpu_usage)
  else
    (false, cpu_usage)

/-! ## Container threshold check — src/docker_monitor.rs -/

/-- The filtering and emptiness test in
DockerMonitor::check_container_cpu_threshold (docker_monitor.rs, lines
161-180), applied to the container list obtained from
`get_container_stats`: keep the containers whose `cpu_usage` strictly
exceeds the threshold, and trigger iff that subset is nonempty. -/
def check_container_cpu_threshold (container_stats : List ContainerStats)
    (threshold : ℚ) : Bool × List ContainerStats :=
  let high_cpu_containers :=
    container_stats.filter (fun container => container.cpu_usage > threshold)
  (!high_cpu_containers.isEmpty, high_cpu_containers)

/-- The container check triggers exactly when some container strictly
exceeds the threshold. -/
theorem check_container_cpu_threshold_fst (stats : List ContainerStats)
    (T : ℚ) :
    (check_container_cpu_threshold stats T).1
      = stats.any (fun c => decide (T < c.cpu_usage)) := by
  simp only [check_container_cpu_threshold, gt_iff_lt]
  induction stats with
  | nil => simp
  | cons c cs ih =>
    by_cases h : T < c.cpu_usage
    · simp [List.filter_cons, h, List.any_cons]
    · simp only [List.filter_cons, h, decide_False, Bool.false_eq_true,
        if_false, List.any_cons, decide_eq_true_eq]
      rw [← ih]
      simp [h]

/-- C1: for every threshold `T` and sampled usage `U`, the host check
triggers exactly when `U > T`; the container check triggers exactly when
some listed container has `cpu_usage > T`, its reported subset contains
exactly the containers with `cpu_usage > T` (in order, so membership is
equivalent to source membership plus strict exceedance), and a usage
exactly equal to the threshold never triggers nor appears in the
subset. -/
theorem host_and_container_threshold_strict (U T : ℚ)
    (stats : List ContainerStats) :
    (check_cpu_threshold U T).1 = decide (T < U)
      ∧ (check_cpu_threshold U T).2 = U
      ∧ (check_cpu_threshold T T).1 = false
      ∧ (check_container_cpu_threshold stats T).1
          = stats.any (fun c => decide (T < c.cpu_usage))
      ∧ (∀ c, c ∈ (check_container_cpu_threshold stats T).2
          ↔ c ∈ stats ∧ T < c.cpu_usage)
      ∧ (check_container_cpu_threshold stats T).2.all
          (fun c => !(c.cpu_usage == T)) = true := by
  refine ⟨?_, ?_, ?_, ?_, ?_, ?_⟩
  · by_cases h : T < U <;> simp [check_cpu_threshold, h]
  · by_cases h : T < U <;> simp [check_cpu_threshold, h]
  · simp [check_cpu_threshold]
  · exact check_container_cpu_threshold_fst stats T
  · intro c
    simp [check_container_cpu_threshold]
  · simp only [check_container_cpu_threshold, List.all_eq_true]
    intro c hc
    have h := (List.mem_filter.mp hc).2
    simp only [gt_iff_lt, decide_eq_true_eq] at h
    simpa using ne_of_gt h

/-! ## Container sampling — src/docker_monitor.rs -/

/-- DockerMonitor::calculate_cpu_usage (docker_monitor.rs, lines
148-152): ignores the stats sample and returns `Ok(0.0)` — the source
comment says "Simplified CPU calculation - return 0.0 for now". -/
def calculate_cpu_usage ( _stats : StatsSample) : Except String ℚ :=
  .ok 0

/-- DockerMonitor::calculate_resource_usage (docker_monitor.rs, lines
118-146). The outcome of the one-shot `docker.stats` stream read
(`stats_stream.next().await`) is passed as `sample : Option StatsSample`
(`some s` for `Some(Ok(s))`; `none` covers both `None` and
`Some(Err(_))`, which the `if let Some(Ok(stats))` pattern sends to the
same `else` branch returning zeros). Fails only when the container has
no id. -/
def calculate_resource_usage (container : ContainerSummary)
    (sample : Option StatsSample) : Except String (ℚ × ℕ × ℕ × ℚ) :=
  match container.id with
  | none => .error "No container id"
  | some _ =>
    match sample with
    | some stats =>
      match calculate_cpu_usage stats with
      | .error e => .error e
      | .ok cpu_usage =>
        let memory_usage := stats.memory_stats.usage.getD 0
        let memory_limit := stats.memory_stats.limit.getD 0
        let memory_percent : ℚ :=
          if memory_limit > 0 then
            ((memory_usage : ℚ) / (memory_limit : ℚ)) * 100
          else
            0
        .ok (cpu_usage, memory_usage, memory_limit, memory_percent)
    | none => .ok (0, 0, 0, 0)

/-- DockerMonitor::get_single_container_stats (docker_monitor.rs, lines
84-116). `sample` is the one-shot stats outcome for this container and
`now` the `Utc::now()` timestamp. The id is truncated to 12 characters,
the first name has a leading slash removed, `ports` is always the empty
vector (source comment: "For now, skip port parsing"). -/
def get_single_container_stats (container : ContainerSummary)
    (sample : Option StatsSample) (now : ℕ) : Except String ContainerStats :=
  let id := container.id.getD "unknown"
  let name :=
    match container.names.bind List.head? with
    | some s => if s.startsWith "/" then s.drop 1 else s
    | none => "unknown"
  let image := container.image.getD "unknown"
  let status := container.status.getD "unknown"
  let ports : List String := []
  match calculate_resource_usage container sample with
  | .error e => .error e
  | .ok (cpu_usage, memory_usage, memory_limit, memory_percent) =>
    .ok { id := String.mk (id.data.take 12)
          name := name
          image := image
          status := status
          cpu_usage := cpu_usage
          memory_usage := memory_usage
          memory_limit := memory_limit
          memory_percent := memory_percent
          ports := ports
          timestamp := now }

/-- The comparator passed to `sort_by` in
DockerMonitor::get_container_stats (docker_monitor.rs, line 79):
`b.cpu_usage.partial_cmp(&a.cpu_usage)` sorts descending by
`cpu_usage`. On `ℚ` the order is total, so the `.unwrap()` (which in
Rust would panic only for NaN) always succeeds. -/
def cpuDescLe (a b : ContainerStats) : Bool :=
  decide (b.cpu_usage ≤ a.cpu_usage)

/-- The collection loop of DockerMonitor::get_container_stats
(docker_monitor.rs, lines 68-76): per-container failures are logged and
skipped (`continue`), successes are pushed in enumeration order. -/
def collect_container_stats (containers : List ContainerSummary)
    (sample : ContainerSummary → Option StatsSample) (now : ℕ) :
    List ContainerStats :=
  containers.filterMap
    (fun container => (get_single_container_stats container (sample container) now).toOption)

/-- The `sort_by` step of DockerMonitor::get_container_stats
(docker_monitor.rs, line 79). Rust `sort_by` is a stable sort; so is
`List.mergeSort`. -/
def sort_container_stats (container_stats : List ContainerStats) :
    List ContainerStats :=
  container_stats.mergeSort cpuDescLe

/-- DockerMonitor::get_container_stats (docker_monitor.rs, lines 64-82):
collect the per-container snapshots for the enumerated containers, then
sort by CPU usage, highest first. The enumeration itself is an external
runtime call; its result is the `containers` argument (the failing case
is handled at the call sites, see `check_container_cpu_threshold_run`). -/
def get_container_stats (containers : List ContainerSummary)
    (sample : ContainerSummary → Option StatsSample) (now : ℕ) :
    List ContainerStats :=
  sort_container_stats (collect_container_stats containers sample now)

/-- DockerMonitor::check_container_cpu_threshold (docker_monitor.rs,
lines 161-180) including its call to `get_container_stats`: the
enumeration outcome is an `Except` (`.error` when
`docker.list_containers` fails, propagated by `?`). -/
def check_container_cpu_threshold_run
    (enum : Except String (List ContainerSummary))
    (sample : ContainerSummary → Option StatsSample) (now : ℕ)
    (threshold : ℚ) : Except String (Bool × List ContainerStats) :=
  match enum with
  | .error e => .error e
  | .ok containers =>
    .ok (check_container_cpu_threshold (get_container_stats containers sample now) threshold)

/-- Every snapshot the sampler can produce has `cpu_usage = 0` and
`ports = []` (the placeholder paths in the source). -/
theorem get_single_container_stats_fields (container : ContainerSummary)
    (sample : Option StatsSample) (now : ℕ) (st : ContainerStats)
    (h : get_single_container_stats container sample now = .ok st) :
    st.cpu_usage = 0 ∧ st.ports = [] := by
  unfold get_single_container_stats at h
  unfold calculate_resource_usage at h
  cases hid : container.id with
  | none => simp [hid] at h
  | some i =>
    cases hs : sample with
    | none =>
      simp only [hid, hs] at h
      cases h
      exact ⟨rfl, rfl⟩
    | some s =>
      simp only [hid, hs, calculate_cpu_usage] at h
      cases h
      exact ⟨rfl, rfl⟩

/-- Membership in the collected list comes from a successful
`get_single_container_stats`. -/
theorem mem_collect_container_stats (containers : List ContainerSummary)
    (sample : ContainerSummary → Option StatsSample) (now : ℕ)
    (st : ContainerStats)
    (h : st ∈ collect_container_stats containers sample now) :
    ∃ c, get_single_container_stats c (sample c) now = .ok st := by
  unfold collect_container_stats at h
  obtain ⟨c, -, hc⟩ := List.mem_filterMap.mp h
  refine ⟨c, ?_⟩
  cases hg : get_single_container_stats c (sample c) now with
  | error e => simp [hg, Except.toOption] at hc
  | ok st2 =>
    simp [hg, Except.toOption] at hc
    simp [hc]

/-- Sorting does not change membership: an element is in the sampler
result iff it is in the collected list. -/
theorem mem_get_container_stats_iff (containers : List ContainerSummary)
    (sample : ContainerSummary → Option StatsSample) (now : ℕ)
    (st : ContainerStats) :
    st ∈ get_container_stats containers sample now
      ↔ st ∈ collect_container_stats containers sample now := by
  unfold get_container_stats sort_container_stats
  exact List.mem_mergeSort

/-- C4: `calculate_cpu_usage` is the constant placeholder `Ok(0.0)`, and
consequently every ContainerStats returned by the sampler
(`get_container_stats`, for any enumeration result, any one-shot stats
outcomes and any timestamp) has `cpu_usage = 0`. -/
theorem container_cpu_usage_always_zero (s : StatsSample)
    (containers : List ContainerSummary)
    (sample : ContainerSummary → Option StatsSample) (now : ℕ) :
    calculate_cpu_usage s = .ok 0
      ∧ (get_container_stats containers sample now).all
          (fun st => st.cpu_usage == 0) = true := by
  refine ⟨rfl, ?_⟩
  rw [List.all_eq_true]
  intro st hst
  have hmem : st ∈ collect_container_stats containers sample now :=
    (mem_get_container_stats_iff containers sample now st).mp hst
  obtain ⟨c, hc⟩ := mem_collect_container_stats _ _ _ _ hmem
  have := (get_single_container_stats_fields c (sample c) now st hc).1
  simpa using this

/-- C10: every ContainerStats returned by the sampler has an empty
`ports` list: the source never populates port information. -/
theorem container_ports_always_empty (containers : List ContainerSummary)
    (sample : ContainerSummary → Option StatsSample) (now : ℕ) :
    (get_container_stats containers sample now).all
      (fun st => st.ports.isEmpty) = true := by
  rw [List.all_eq_true]
  intro st hst
  have hmem : st ∈ collect_container_stats containers sample now :=
    (mem_get_container_stats_iff containers sample now st).mp hst
  obtain ⟨c, hc⟩ := mem_collect_container_stats _ _ _ _ hmem
  have := (get_single_container_stats_fields c (sample c) now st hc).2
  simp [this]

/-- The descending-CPU comparator is transitive. -/
theorem cpuDescLe_trans (a b c : ContainerStats) :
    cpuDescLe a b → cpuDescLe b c → cpuDescLe a c := by
  simp only [cpuDescLe, decide_eq_true_eq]
  intro h1 h2
  exact le_trans h2 h1

/-- The descending-CPU comparator is total. -/
theorem cpuDescLe_total (a b : ContainerStats) :
    cpuDescLe a b || cpuDescLe b a := by
  simp only [cpuDescLe, Bool.or_eq_true, decide_eq_true_eq]
  exact le_total b.cpu_usage a.cpu_usage

/-- The sort step yields a list sorted descending by `cpu_usage`. -/
theorem sort_container_stats_sorted (l : List ContainerStats) :
    (sort_container_stats l).Pairwise
      (fun a b => b.cpu_usage ≤ a.cpu_usage) := by
  have h := List.sorted_mergeSort cpuDescLe_trans cpuDescLe_total l
  exact h.imp (fun hab => by simpa [cpuDescLe] using hab)

/-- The sort step is stable: for every CPU value `v`, the snapshots with
that exact value appear in the sorted output in the same order as in the
input. -/
theorem sort_container_stats_stable (l : List ContainerStats) (v : ℚ) :
    (sort_container_stats l).filter (fun c => c.cpu_usage == v)
      = l.filter (fun c => c.cpu_usage == v) := by
  set p : ContainerStats → Bool := fun c => c.cpu_usage == v with hp
  have hpair : (l.filter p).Pairwise (fun a b => cpuDescLe a b = true) := by
    apply List.pairwise_of_forall_mem_list
    intro a ha b hb
    have ha' : a.cpu_usage = v := by
      simpa [hp] using (List.mem_filter.mp ha).2
    have hb' : b.cpu_usage = v := by
      simpa [hp] using (List.mem_filter.mp hb).2
    simp [cpuDescLe, ha', hb']
  have hsub : List.Sublist (l.filter p) (sort_container_stats l) := by
    unfold sort_container_stats
    exact List.sublist_mergeSort cpuDescLe_trans cpuDescLe_total hpair
      (List.filter_sublist l)
  have hself : (l.filter p).filter p = l.filter p := by
    simp [List.filter_filter]
  have hsub2 : List.Sublist (l.filter p) ((sort_container_stats l).filter p) := by
    have h := hsub.filter p
    rwa [hself] at h
  have hlen : ((sort_container_stats l).filter p).length
      = (l.filter p).length := by
    have hperm : List.Perm (sort_container_stats l) l :=
      List.mergeSort_perm l cpuDescLe
    exact (hperm.filter p).length_eq
  exact (hsub2.eq_of_length hlen.symm).symm

/-- C5: the ContainerSet returned by `get_container_stats` is the stable
descending sort (by `cpu_usage`) of the snapshots in enumeration order:
consecutive elements are in weakly decreasing CPU order, and for every
value `v` the snapshots whose CPU equals `v` keep their original
relative order. -/
theorem container_set_sorted_and_stable (l : List ContainerStats) (v : ℚ)
    (containers : List ContainerSummary)
    (sample : ContainerSummary → Option StatsSample) (now : ℕ) :
    (sort_container_stats l).Pairwise
        (fun a b => b.cpu_usage ≤ a.cpu_usage)
      ∧ (sort_container_stats l).filter (fun c => c.cpu_usage == v)
          = l.filter (fun c => c.cpu_usage == v)
      ∧ get_container_stats containers sample now
          = sort_container_stats (collect_container_stats containers sample now) :=
  ⟨sort_container_stats_sorted l, sort_container_stats_stable l v, rfl⟩

/-! ## Email notifier — src/email_notifier.rs -/

/-- EmailNotifier (email_notifier.rs, lines 11-14). -/
structure EmailNotifier where
  config : EmailConfig
  enabled : Bool
deriving Repr, DecidableEq

/-- EmailNotifier::new (email_notifier.rs, lines 16-44): the notifier is
enabled only when the config flag is set AND none of sender address,
sender credential, recipient address is empty. -/
def EmailNotifier.new (config : Config) : EmailNotifier :=
  let email_config := config.email
  if email_config.enabled then
    if email_config.sender_email.isEmpty
        || email_config.sender_password.isEmpty
        || email_config.recipient_email.isEmpty then
      { config := email_config, enabled := false }
    else
      { config := email_config, enabled := true }
  else
    { config := email_config, enabled := false }

/-- How one call of EmailNotifier::send_alert terminates: a returned
boolean, or a panic (an unhandled `.unwrap()` failure). -/
inductive SendResult where
  | returned (b : Bool)
  | panicked
deriving Repr, DecidableEq

/-- Observable trace of one EmailNotifier::send_alert call: its result,
whether message construction was started, and whether the SMTP transport
send was attempted. -/
structure SendTrace where
  result : SendResult
  build_attempted : Bool
  transport_attempted : Bool
deriving Repr, DecidableEq

/-- EmailNotifier::send_alert (email_notifier.rs, lines 46-96). The
external calls are oracles: `parseOk a` tells whether `a.parse()` to a
mailbox address succeeds (line 53 for the sender, line 54 for the
recipient — on failure the source calls `.unwrap()` on the `Err`, which
panics); `buildOk` whether the multipart message build returns `Ok`
(line 70); `relayOk` whether `SmtpTransport::relay(&smtp_server)`
returns `Ok` (line 77, again followed by `.unwrap()`); `transportOk`
whether `mailer.send(&email)` returns `Ok` (line 82). The subject and
body contents do not influence control flow and are omitted. -/
def EmailNotifier.send_alert (n : EmailNotifier) (parseOk : String → Bool)
    (buildOk relayOk transportOk : Bool) : SendTrace :=
  if !n.enabled then
    { result := .returned false, build_attempted := false,
      transport_attempted := false }
  else if !parseOk n.config.sender_email then
    { result := .panicked, build_attempted := true,
      transport_attempted := false }
  else if !parseOk n.config.recipient_email then
    { result := .panicked, build_attempted := true,
      transport_attempted := false }
  else if buildOk then
    if !relayOk then
      { result := .panicked, build_attempted := true,
        transport_attempted := false }
    else if transportOk then
      { result := .returned true, build_attempted := true,
        transport_attempted := true }
    else
      { result := .returned false, build_attempted := true,
        transport_attempted := true }
  else
    { result := .returned false, build_attempted := true,
      transport_attempted := false }

/-- A concrete enabled notifier configuration used to exhibit the panic
on an unparsable sender address. -/
def notifierWithBadSender : EmailNotifier :=
  EmailNotifier.new
    { Config.default with
      email :=
        { enabled := true
          smtp_server := "smtp.gmail.com"
          smtp_port := 587
          sender_email := "not an address"
          sender_password := "pw"
          recipient_email := "ops@example.com" } }

/-- C2 counterexample: not every failure of `send_alert` returns
`false`. With a sender address whose parse fails (the oracle returns
`false` for every string, as `"not an address".parse::<Mailbox>()`
does), the call panics — `.unwrap()` on line 53 — instead of returning
`false`, so a failure IS propagated to the caller as a hard failure. -/
theorem send_alert_parse_failure_panics :
    (notifierWithBadSender.send_alert (fun _ => false) true true true).result
        = SendResult.panicked
      ∧ (notifierWithBadSender.send_alert (fun _ => false) true true true).result
        ≠ SendResult.returned false := by
  constructor
  · rfl
  · decide

/-- C2 (amended): provided both configured addresses parse and the SMTP
relay constructor succeeds, `send_alert` never panics: it returns `true`
exactly when the notifier is enabled, the message build succeeds and the
transport accepts the message, and `false` on every other path (disabled
notifier, build failure, transport failure). Address-parse failure and
relay-construction failure, however, panic (see the counterexample). -/
theorem send_alert_build_transport_failures_return_false
    (n : EmailNotifier) (parseOk : String → Bool)
    (buildOk transportOk : Bool)
    (hs : parseOk n.config.sender_email = true)
    (hr : parseOk n.config.recipient_email = true) :
    (n.send_alert parseOk buildOk true transportOk).result
      = SendResult.returned (n.enabled && buildOk && transportOk) := by
  unfold EmailNotifier.send_alert
  cases he : n.enabled with
  | false => simp [he]
  | true =>
    cases buildOk <;> cases transportOk <;> simp [he, hs, hr]

/-- Witness for the amended C2 theorem at a concrete notifier: enabled,
addresses parse, build succeeds, transport fails — the call returns
`false`. -/
theorem send_alert_build_transport_failures_return_false_witness :
    ((EmailNotifier.new
        { Config.default with
          email :=
            { enabled := true
              smtp_server := "smtp.gmail.com"
              smtp_port := 587
              sender_email := "a@example.com"
              sender_password := "pw"
              recipient_email := "b@example.com" } }).send_alert
        (fun _ => true) true true false).result
      = SendResult.returned false := by
  have h := send_alert_build_transport_failures_return_false
    (EmailNotifier.new
      { Config.default with
        email :=
          { enabled := true
            smtp_server := "smtp.gmail.com"
            smtp_port := 587
            sender_email := "a@example.com"
            sender_password := "pw"
            recipient_email := "b@example.com" } })
    (fun _ => true) true false rfl rfl
  simpa using h

/-- C6: when the config flag is off, or any of the three email fields is
empty, the constructed notifier refuses every send: for all oracle
outcomes the call returns `false` with neither a message build nor a
transport attempt. -/
theorem disabled_notifier_never_sends (cfg : Config)
    (parseOk : String → Bool) (buildOk relayOk transportOk : Bool)
    (h : cfg.email.enabled = false ∨ cfg.email.sender_email = ""
        ∨ cfg.email.sender_password = "" ∨ cfg.email.recipient_email = "") :
    (EmailNotifier.new cfg).send_alert parseOk buildOk relayOk transportOk
      = { result := .returned false, build_attempted := false,
          transport_attempted := false } := by
  have hdis : (EmailNotifier.new cfg).enabled = false := by
    unfold EmailNotifier.new
    rcases h with h | h | h | h <;>
      simp [h, String.isEmpty_iff]
  unfold EmailNotifier.send_alert
  simp [hdis]

/-- Witness for C6 at a concrete config: flag set but empty password —
`send_alert` returns `false` without build or transport. -/
theorem disabled_notifier_never_sends_witness :
    (EmailNotifier.new
        { Config.default with
          email :=
            { enabled := true
              smtp_server := "s"
              smtp_port := 25
              sender_email := "a@example.com"
              sender_password := ""
              recipient_email := "b@example.com" } }).send_alert
        (fun _ => true) true true true
      = { result := .returned false, build_attempted := false,
          transport_attempted := false } :=
  disabled_notifier_never_sends _ (fun _ => true) true true true
    (Or.inr (Or.inr (Or.inl rfl)))

/-! ## Orchestrator — src/main.rs -/

/-- The fixed secondary container threshold used by
PerformanceMonitor::check_server_cpu (main.rs, line 73): the literal
`50.0` passed to `check_container_cpu_threshold`, distinct from the
configured `monitoring.cpu_threshold`. -/
def SECONDARY_CONTAINER_CPU_THRESHOLD : ℚ := 50

/-- Observable outcome of PerformanceMonitor::check_server_cpu: the
returned pair `(is_high, cpu_usage)`, the container list passed to
`send_cpu_alert`, and whether that alert dispatch was attempted. -/
structure ServerCheckTrace where
  is_high : Bool
  cpu_usage : ℚ
  alert_containers : List ContainerStats
  alert_attempted : Bool
deriving Repr, DecidableEq

/-- Observable outcome of PerformanceMonitor::check_container_cpu: the
returned pair and whether `send_container_cpu_alert` was attempted. -/
structure ContainerCheckTrace where
  is_high : Bool
  high_cpu_containers : List ContainerStats
  alert_attempted : Bool
deriving Repr, DecidableEq

/-- PerformanceMonitor::check_server_cpu (main.rs, lines 63-89): check
the host threshold; when high, gather the containers above the fixed
50% secondary threshold (`unwrap_or((false, vec![]))` turns an
enumeration failure into the empty list) and attempt the host-CPU
alert. `cpu_usage` is the host CPU sample, `enum` the outcome of the
container enumeration performed inside the high branch. -/
def check_server_cpu (cfg : Config) (cpu_usage : ℚ)
    (enum : Except String (List ContainerSummary))
    (sample : ContainerSummary → Option StatsSample) (now : ℕ) :
    ServerCheckTrace :=
  match check_cpu_threshold cpu_usage cfg.monitoring.cpu_threshold with
  | (is_high, cpu) =>
    if is_high then
      let high_cpu_containers :=
        match check_container_cpu_threshold_run enum sample now
            SECONDARY_CONTAINER_CPU_THRESHOLD with
        | .ok (_, high) => high
        | .error _ => []
      { is_high := true, cpu_usage := cpu,
        alert_containers := high_cpu_containers, alert_attempted := true }
    else
      { is_high := false, cpu_usage := cpu,
        alert_containers := [], alert_attempted := false }

/-- PerformanceMonitor::check_container_cpu (main.rs, lines 91-117):
run the container threshold check at the configured
`monitoring.cpu_threshold`; on enumeration failure log and return
`(false, vec![])`; attempt the container-CPU alert iff the check
triggered. -/
def check_container_cpu (cfg : Config)
    (enum : Except String (List ContainerSummary))
    (sample : ContainerSummary → Option StatsSample) (now : ℕ) :
    ContainerCheckTrace :=
  match check_container_cpu_threshold_run enum sample now
      cfg.monitoring.cpu_threshold with
  | .ok (is_high, high_cpu_containers) =>
    { is_high := is_high, high_cpu_containers := high_cpu_containers,
      alert_attempted := is_high }
  | .error _ =>
    { is_high := false, high_cpu_containers := [], alert_attempted := false }

/-- PerformanceMonitor::run_monitoring (main.rs, lines 119-133): one
cycle runs the server check then the container check and returns
`Ok(server_high || container_high)`. The two checks enumerate the
runtime independently, so each gets its own enumeration outcome. -/
def run_monitoring (cfg : Config) (cpu_usage : ℚ)
    (enum_server enum_container : Except String (List ContainerSummary))
    (sample : ContainerSummary → Option StatsSample) (now : ℕ) : Bool :=
  let server := check_server_cpu cfg cpu_usage enum_server sample now
  let containers := check_container_cpu cfg enum_container sample now
  server.is_high || containers.is_high

/-- C7: when the container enumeration fails mid-cycle, the cycle still
completes: the container portion is the empty result
(`container_triggered = false`, empty high-CPU list, no container alert
attempt), the host evaluation is whatever it is for the same host
sample, and the overall cycle boolean equals the host result alone. -/
theorem cycle_tolerates_enumeration_failure (cfg : Config) (cpu_usage : ℚ)
    (e : String) (enum_server : Except String (List ContainerSummary))
    (sample : ContainerSummary → Option StatsSample) (now : ℕ) :
    check_container_cpu cfg (.error e) sample now
        = { is_high := false, high_cpu_containers := [],
            alert_attempted := false }
      ∧ run_monitoring cfg cpu_usage enum_server (.error e) sample now
        = (check_server_cpu cfg cpu_usage enum_server sample now).is_high := by
  constructor
  · rfl
  · unfold run_monitoring
    simp [check_container_cpu, check_container_cpu_threshold_run]

/-- C8: the containers listed alongside a host-CPU alert are exactly
those above the fixed secondary 50% threshold (a constant distinct from
the configured one), while both alert decisions ignore that filter: the
host alert is attempted exactly when the host sample strictly exceeds
the configured `monitoring.cpu_threshold`, and the container alert is
attempted exactly when some sampled container strictly exceeds the
configured `monitoring.cpu_threshold`. -/
theorem secondary_fifty_filter_only_selects_listing (cfg : Config)
    (cpu_usage : ℚ) (containers : List ContainerSummary)
    (enum : Except String (List ContainerSummary))
    (sample : ContainerSummary → Option StatsSample) (now : ℕ) :
    SECONDARY_CONTAINER_CPU_THRESHOLD = 50
      ∧ (check_server_cpu cfg cpu_usage enum sample now).is_high
          = decide (cfg.monitoring.cpu_threshold < cpu_usage)
      ∧ (check_server_cpu cfg cpu_usage enum sample now).alert_attempted
          = decide (cfg.monitoring.cpu_threshold < cpu_usage)
      ∧ (check_server_cpu cfg cpu_usage enum sample now).alert_containers.all
          (fun c => decide (SECONDARY_CONTAINER_CPU_THRESHOLD < c.cpu_usage))
          = true
      ∧ (check_container_cpu cfg (.ok containers) sample now).is_high
          = (get_container_stats containers sample now).any
              (fun c => decide (cfg.monitoring.cpu_threshold < c.cpu_usage))
      ∧ (check_container_cpu cfg (.ok containers) sample now).alert_attempted
          = (check_container_cpu cfg (.ok containers) sample now).is_high := by
  refine ⟨rfl, ?_, ?_, ?_, ?_, rfl⟩
  · by_cases h : cfg.monitoring.cpu_threshold < cpu_usage <;>
      simp [check_server_cpu, check_cpu_threshold, h]
  · by_cases h : cfg.monitoring.cpu_threshold < cpu_usage <;>
      simp [check_server_cpu, check_cpu_threshold, h]
  · rw [List.all_eq_true]
    intro c hc
    by_cases h : cfg.monitoring.cpu_threshold < cpu_usage
    · cases enum with
      | error e =>
        simp [check_server_cpu, check_cpu_threshold, h,
          check_container_cpu_threshold_run] at hc
      | ok cs =>
        simp [check_server_cpu, check_cpu_threshold, h,
          check_container_cpu_threshold_run, check_container_cpu_threshold,
          SECONDARY_CONTAINER_CPU_THRESHOLD] at hc
        simpa [SECONDARY_CONTAINER_CPU_THRESHOLD] using hc.2
    · simp [check_server_cpu, check_cpu_threshold, h] at hc
  · simp only [check_container_cpu, check_container_cpu_threshold_run]
    exact check_container_cpu_threshold_fst _ _

/-! ## Alert composition — src/email_notifier.rs -/

/-- Naive substring test on char lists: does `hay` start with
`needle`? -/
def beginsWith : List Char → List Char → Bool
  | [], _ => true
  | _ :: _, [] => false
  | a :: as, b :: bs => a == b && beginsWith as bs

/-- Naive substring test: does `hay` contain `needle` contiguously? -/
def containsChars (needle : List Char) : List Char → Bool
  | [] => needle.isEmpty
  | c :: rest => beginsWith needle (c :: rest) || containsChars needle rest

/-- Substring test on strings. -/
def containsStr (hay needle : String) : Bool :=
  containsChars needle.data hay.data

/-- The `<table>` opening tag built by both table formatters
(email_notifier.rs, lines 181-183 and 208-210). -/
def tableOpen : String :=
  "<table border=\x271\x27 style=\x27border-collapse: collapse; width: 100%;\x27>"

/-- The header-row opening tag (email_notifier.rs, lines 184 and 211). -/
def headerRowOpen : String :=
  "<tr style=\x27background-color: #f2f2f2;\x27>"

/-- One header cell (email_notifier.rs, lines 185-188 and 212-216). -/
def headerCell (label : String) : String :=
  "<th style=\x27padding: 8px; text-align: left;\x27>" ++ label ++ "</th>"

/-- One body row of the basic container table (email_notifier.rs,
lines 191-201). `fmt2` renders a float with two decimals, as the Rust
format specifier does; its output never influences control flow. -/
def containerRow (fmt2 : ℚ → String) (container : ContainerStats) : String :=
  "<tr>"
    ++ "<td style=\x27padding: 8px;\x27>" ++ container.name ++ "</td>"
    ++ "<td style=\x27padding: 8px; color: red; font-weight: bold;\x27>"
      ++ fmt2 container.cpu_usage ++ "%</td>"
    ++ "<td style=\x27padding: 8px;\x27>" ++ fmt2 container.memory_percent
      ++ "%</td>"
    ++ "<td style=\x27padding: 8px;\x27>" ++ container.image ++ "</td>"
    ++ "</tr>"

/-- One body row of the detailed container table (email_notifier.rs,
lines 219-230): same as the basic row plus a Status cell. -/
def detailedContainerRow (fmt2 : ℚ → String) (container : ContainerStats) :
    String :=
  "<tr>"
    ++ "<td style=\x27padding: 8px;\x27>" ++ container.name ++ "</td>"
    ++ "<td style=\x27padding: 8px; color: red; font-weight: bold;\x27>"
      ++ fmt2 container.cpu_usage ++ "%</td>"
    ++ "<td style=\x27padding: 8px;\x27>" ++ fmt2 container.memory_percent
      ++ "%</td>"
    ++ "<td style=\x27padding: 8px;\x27>" ++ container.image ++ "</td>"
    ++ "<td style=\x27padding: 8px;\x27>" ++ container.status ++ "</td>"
    ++ "</tr>"

/-- EmailNotifier::format_container_table (email_notifier.rs, lines
176-205), used by the host-CPU alert: an empty list short-circuits to an
explanatory sentence, otherwise a table with Name, CPU, Memory and Image
columns is accumulated row by row. -/
def format_container_table (fmt2 : ℚ → String)
    (containers : List ContainerStats) : String :=
  if containers.isEmpty then
    "<p>No specific containers with high CPU usage detected.</p>"
  else
    tableOpen ++ headerRowOpen
      ++ headerCell "Container Name" ++ headerCell "CPU Usage"
      ++ headerCell "Memory Usage" ++ headerCell "Image" ++ "</tr>"
      ++ String.join (containers.map (containerRow fmt2))
      ++ "</table>"

/-- EmailNotifier::format_detailed_container_table (email_notifier.rs,
lines 207-234), used by the container-CPU alert: NO empty-list check —
the table (with an extra Status column) is always emitted, even with no
rows. -/
def format_detailed_container_table (fmt2 : ℚ → String)
    (containers : List ContainerStats) : String :=
  tableOpen ++ headerRowOpen
    ++ headerCell "Container Name" ++ headerCell "CPU Usage"
    ++ headerCell "Memory Usage" ++ headerCell "Image"
    ++ headerCell "Status" ++ "</tr>"
    ++ String.join (containers.map (detailedContainerRow fmt2))
    ++ "</table>"

set_option maxRecDepth 16384 in
/-- C3 counterexample: the container-CPU alert template does NOT render
the "no containers" sentence for an empty list. For every float
formatter (here the concrete constant one), the detailed table of the
empty list is exactly the header-only HTML table, and it does not
contain the explanatory sentence of the basic formatter. -/
theorem detailed_table_empty_is_header_only :
    format_detailed_container_table (fun _ => "") []
        = "<table border=\x271\x27 style=\x27border-collapse: collapse; width: 100%;\x27><tr style=\x27background-color: #f2f2f2;\x27><th style=\x27padding: 8px; text-align: left;\x27>Container Name</th><th style=\x27padding: 8px; text-align: left;\x27>CPU Usage</th><th style=\x27padding: 8px; text-align: left;\x27>Memory Usage</th><th style=\x27padding: 8px; text-align: left;\x27>Image</th><th style=\x27padding: 8px; text-align: left;\x27>Status</th></tr></table>"
      ∧ containsStr (format_detailed_container_table (fun _ => "") [])
          "No specific containers" = false := by
  constructor
  · rfl
  · decide

set_option maxRecDepth 16384 in
/-- C3 (amended): composing the host-CPU alert with an empty container
list yields exactly the explanatory "no containers" sentence (and hence
a body containing it), for every float formatter; the container-CPU
alert template instead renders a header-only table for the empty list
(see the counterexample). -/
theorem empty_table_renders_no_containers_sentence (fmt2 : ℚ → String) :
    format_container_table fmt2 []
        = "<p>No specific containers with high CPU usage detected.</p>"
      ∧ containsStr (format_container_table fmt2 [])
          "No specific containers with high CPU usage detected." = true := by
  constructor
  · rfl
  · show containsStr "<p>No specific containers with high CPU usage detected.</p>"
      "No specific containers with high CPU usage detected." = true
    decide

/-! ## HTML stripping — src/email_notifier.rs, strip_html_tags -/

/-- The character loop of EmailNotifier::strip_html_tags
(email_notifier.rs, lines 238-249): a char equal to `<` enters tag
state, `>` leaves it (both are always dropped), any other char is kept
iff outside a tag. -/
def removeTags : List Char → Bool → List Char
  | [], _ => []
  | c :: rest, in_tag =>
    if c = '<' then removeTags rest true
    else if c = '>' then removeTags rest false
    else if in_tag then removeTags rest true
    else c :: removeTags rest false

/-- Whitespace as used by the trim step. Rust `str::trim` uses Unicode
White_Space; `Char.isWhitespace` (space, tab, CR, LF) agrees with it on
the ASCII range, and no claim here involves non-ASCII whitespace. -/
def isWs (c : Char) : Bool := c.isWhitespace

/-- Rust `str::trim` (email_notifier.rs, line 253): drop leading and
trailing whitespace. -/
def trimChars (cs : List Char) : List Char :=
  ((cs.dropWhile isWs).reverse.dropWhile isWs).reverse

/-- Split at newline characters, keeping empty segments. Rust `lines()`
(line 252) differs only in eating a `\r` before each `\n` and in not
yielding a final empty segment; both differences vanish under the
following trim and empty-filter, so the composed pipeline is the same
function. -/
def splitLines : List Char → List (List Char)
  | [] => [[]]
  | c :: rest =>
    match splitLines rest with
    | [] => [[]]
    | l :: ls => if c = '\n' then [] :: l :: ls else (c :: l) :: ls

/-- Rust `.collect::<Vec<_>>().join("\n")` (email_notifier.rs,
line 256). -/
def joinLines : List (List Char) → List Char
  | [] => []
  | [l] => l
  | l :: ls => l ++ '\n' :: joinLines ls

/-- The whitespace cleanup of strip_html_tags (email_notifier.rs, lines
252-256): per-line trim, drop blank lines, re-join with newlines. -/
def cleanLines (cs : List Char) : List Char :=
  joinLines (((splitLines cs).map trimChars).filter (fun l => !l.isEmpty))

/-- EmailNotifier::strip_html_tags (email_notifier.rs, lines 236-257). -/
def strip_html_tags (html : String) : String :=
  String.mk (cleanLines (removeTags html.data false))

/-- The tag-removal loop never emits `<` or `>`. -/
theorem removeTags_no_tag_chars (cs : List Char) (b : Bool) :
    '<' ∉ removeTags cs b ∧ '>' ∉ removeTags cs b := by
  induction cs generalizing b with
  | nil => simp [removeTags]
  | cons c rest ih =>
    by_cases h1 : c = '<'
    · simpa [removeTags, h1] using ih true
    · by_cases h2 : c = '>'
      · simpa [removeTags, h1, h2] using ih false
      · cases b with
        | true => simpa [removeTags, h1, h2] using ih true
        | false =>
          simp only [removeTags, if_neg h1, if_neg h2, Bool.false_eq_true,
            if_false]
          constructor
          · intro hmem
            rcases List.mem_cons.mp hmem with h | h
            · exact h1 h.symm
            · exact (ih false).1 h
          · intro hmem
            rcases List.mem_cons.mp hmem with h | h
            · exact h2 h.symm
            · exact (ih false).2 h

/-- On input containing no `<` and no `>`, the tag-removal loop is the
identity. -/
theorem removeTags_of_no_tags {cs : List Char} (h1 : '<' ∉ cs)
    (h2 : '>' ∉ cs) : removeTags cs false = cs := by
  induction cs with
  | nil => rfl
  | cons c rest ih =>
    have hc1 : c ≠ '<' := fun he => h1 (he ▸ List.mem_cons_self c rest)
    have hc2 : c ≠ '>' := fun he => h2 (he ▸ List.mem_cons_self c rest)
    have hr1 : '<' ∉ rest := fun hm => h1 (List.mem_cons_of_mem c hm)
    have hr2 : '>' ∉ rest := fun hm => h2 (List.mem_cons_of_mem c hm)
    simp only [removeTags, if_neg (fun he => hc1 he),
      if_neg (fun he => hc2 he), Bool.false_eq_true, if_false]
    rw [ih hr1 hr2]

/-- The head of a whitespace-dropWhile is not whitespace. -/
theorem head?_dropWhile_isWs {l : List Char} {c : Char}
    (h : (l.dropWhile isWs).head? = some c) : isWs c = false := by
  have hnot := List.head?_dropWhile_not isWs l
  rw [h] at hnot
  exact hnot

/-- A list whose head is not whitespace is unchanged by the
whitespace-dropWhile. -/
theorem dropWhile_isWs_eq_self {l : List Char}
    (h : ∀ c, l.head? = some c → isWs c = false) :
    l.dropWhile isWs = l := by
  cases l with
  | nil => rfl
  | cons c t =>
    have hc := h c rfl
    simp [List.dropWhile_cons, hc]

/-- The whitespace-dropWhile is idempotent. -/
theorem dropWhile_isWs_idem (l : List Char) :
    (l.dropWhile isWs).dropWhile isWs = l.dropWhile isWs :=
  dropWhile_isWs_eq_self (fun _ hc => head?_dropWhile_isWs hc)

/-- A nonempty whitespace-dropWhile keeps the last element. -/
theorem getLast?_dropWhile_isWs (l : List Char)
    (h : l.dropWhile isWs ≠ []) :
    (l.dropWhile isWs).getLast? = l.getLast? := by
  induction l with
  | nil => simp at h
  | cons c t ih =>
    by_cases hc : isWs c
    · rw [List.dropWhile_cons_of_pos hc] at h ⊢
      rw [ih h]
      cases t with
      | nil => simp [List.dropWhile] at h
      | cons d u => simp [List.getLast?_cons_cons]
    · rw [List.dropWhile_cons_of_neg hc]

/-- The trim step is idempotent. -/
theorem trimChars_idem (l : List Char) :
    trimChars (trimChars l) = trimChars l := by
  unfold trimChars
  have h1 : (((l.dropWhile isWs).reverse.dropWhile isWs).reverse).dropWhile isWs
      = ((l.dropWhile isWs).reverse.dropWhile isWs).reverse := by
    apply dropWhile_isWs_eq_self
    intro c hc
    rw [List.head?_reverse] at hc
    by_cases hnil : (l.dropWhile isWs).reverse.dropWhile isWs = []
    · rw [hnil] at hc
      simp at hc
    · rw [getLast?_dropWhile_isWs _ hnil, List.getLast?_reverse] at hc
      exact head?_dropWhile_isWs hc
  rw [h1, List.reverse_reverse, dropWhile_isWs_idem]

/-- Trimming only removes characters. -/
theorem mem_trimChars {c : Char} {l : List Char} (h : c ∈ trimChars l) :
    c ∈ l := by
  unfold trimChars at h
  rw [List.mem_reverse] at h
  have h1 : c ∈ (l.dropWhile isWs).reverse :=
    (List.dropWhile_sublist isWs).subset h
  rw [List.mem_reverse] at h1
  exact (List.dropWhile_sublist isWs).subset h1

/-- The line splitter always yields at least one segment. -/
theorem splitLines_ne_nil (cs : List Char) : splitLines cs ≠ [] := by
  cases cs with
  | nil => simp [splitLines]
  | cons c rest =>
    simp only [splitLines]
    cases h : splitLines rest with
    | nil => simp
    | cons l ls => by_cases hc : c = '\n' <;> simp [hc]

/-- No segment produced by the line splitter contains a newline. -/
theorem no_newline_mem_splitLines {l cs : List Char}
    (h : l ∈ splitLines cs) : '\n' ∉ l := by
  induction cs generalizing l with
  | nil =>
    simp only [splitLines, List.mem_singleton] at h
    simp [h]
  | cons c rest ih =>
    simp only [splitLines] at h
    cases hs : splitLines rest with
    | nil => exact absurd hs (splitLines_ne_nil rest)
    | cons m ms =>
      simp only [hs] at h
      by_cases hc : c = '\n'
      · rw [if_pos hc] at h
        rcases List.mem_cons.mp h with rfl | h2
        · simp
        · exact ih (hs ▸ h2)
      · rw [if_neg hc] at h
        rcases List.mem_cons.mp h with rfl | h2
        · intro hmem
          rcases List.mem_cons.mp hmem with he | hm
          · exact hc he.symm
          · exact ih (hs ▸ List.mem_cons_self m ms) hm
        · exact ih (hs ▸ List.mem_cons_of_mem m h2)

/-- Characters of the split segments come from the source list. -/
theorem mem_of_mem_splitLines {c : Char} {l cs : List Char}
    (hl : l ∈ splitLines cs) (hc : c ∈ l) : c ∈ cs := by
  induction cs generalizing l with
  | nil =>
    simp only [splitLines, List.mem_singleton] at hl
    subst hl
    simp at hc
  | cons a rest ih =>
    simp only [splitLines] at hl
    cases hs : splitLines rest with
    | nil => exact absurd hs (splitLines_ne_nil rest)
    | cons m ms =>
      simp only [hs] at hl
      by_cases ha : a = '\n'
      · rw [if_pos ha] at hl
        rcases List.mem_cons.mp hl with rfl | h2
        · simp at hc
        · exact List.mem_cons_of_mem a (ih (hs ▸ h2) hc)
      · rw [if_neg ha] at hl
        rcases List.mem_cons.mp hl with rfl | h2
        · rcases List.mem_cons.mp hc with rfl | h3
          · exact List.mem_cons_self _ _
          · exact List.mem_cons_of_mem a
              (ih (hs ▸ List.mem_cons_self m ms) h3)
        · exact List.mem_cons_of_mem a
            (ih (hs ▸ List.mem_cons_of_mem m h2) hc)

/-- A newline-free list splits into the single segment it is. -/
theorem splitLines_of_no_newline {cs : List Char} (h : '\n' ∉ cs) :
    splitLines cs = [cs] := by
  induction cs with
  | nil => rfl
  | cons c rest ih =>
    have hc : c ≠ '\n' := fun he => h (he ▸ List.mem_cons_self c rest)
    have hr : '\n' ∉ rest := fun hm => h (List.mem_cons_of_mem c hm)
    simp only [splitLines, ih hr]
    simp [hc]

/-- Splitting distributes over a newline-free head segment followed by a
newline. -/
theorem splitLines_append_newline {l : List Char} (rest : List Char)
    (h : '\n' ∉ l) :
    splitLines (l ++ '\n' :: rest) = l :: splitLines rest := by
  induction l with
  | nil =>
    simp only [List.nil_append, splitLines]
    cases hs : splitLines rest with
    | nil => exact absurd hs (splitLines_ne_nil rest)
    | cons m ms => simp
  | cons c t ih =>
    have hc : c ≠ '\n' := fun he => h (he ▸ List.mem_cons_self c t)
    have ht : '\n' ∉ t := fun hm => h (List.mem_cons_of_mem c hm)
    simp only [List.cons_append, splitLines]
    simp [hc]
    rw [ih ht]

/-- Splitting a join of newline-free segments recovers the segments. -/
theorem splitLines_joinLines {ls : List (List Char)} (hne : ls ≠ [])
    (h : ∀ l ∈ ls, '\n' ∉ l) :
    splitLines (joinLines ls) = ls := by
  induction ls with
  | nil => exact absurd rfl hne
  | cons l rest ih =>
    cases rest with
    | nil =>
      simp only [joinLines]
      exact splitLines_of_no_newline (h l (List.mem_cons_self _ _))
    | cons m ms =>
      have hjoin : joinLines (l :: m :: ms) = l ++ '\n' :: joinLines (m :: ms) := rfl
      rw [hjoin, splitLines_append_newline _ (h l (List.mem_cons_self _ _)),
        ih (by simp) (fun x hx => h x (List.mem_cons_of_mem l hx))]

/-- Characters of a join come from the segments or are newlines. -/
theorem mem_joinLines {c : Char} {ls : List (List Char)}
    (h : c ∈ joinLines ls) : c = '\n' ∨ ∃ l ∈ ls, c ∈ l := by
  induction ls with
  | nil => simp [joinLines] at h
  | cons l rest ih =>
    cases rest with
    | nil =>
      simp only [joinLines] at h
      exact Or.inr ⟨l, List.mem_cons_self _ _, h⟩
    | cons m ms =>
      have hjoin : joinLines (l :: m :: ms) = l ++ '\n' :: joinLines (m :: ms) := rfl
      rw [hjoin] at h
      rcases List.mem_append.mp h with h1 | h2
      · exact Or.inr ⟨l, List.mem_cons_self _ _, h1⟩
      · rcases List.mem_cons.mp h2 with rfl | h3
        · exact Or.inl rfl
        · rcases ih h3 with h4 | ⟨x, hx, hcx⟩
          · exact Or.inl h4
          · exact Or.inr ⟨x, List.mem_cons_of_mem _ hx, hcx⟩

/-- Characters of the cleaned text come from the input or are
newlines. -/
theorem mem_cleanLines {c : Char} {cs : List Char}
    (h : c ∈ cleanLines cs) : c = '\n' ∨ c ∈ cs := by
  unfold cleanLines at h
  rcases mem_joinLines h with h1 | ⟨l, hl, hcl⟩
  · exact Or.inl h1
  · have hl2 := (List.mem_filter.mp hl).1
    rcases List.mem_map.mp hl2 with ⟨m, hm, rfl⟩
    exact Or.inr (mem_of_mem_splitLines hm (mem_trimChars hcl))

/-- The whitespace cleanup is idempotent. -/
theorem cleanLines_idem (cs : List Char) :
    cleanLines (cleanLines cs) = cleanLines cs := by
  unfold cleanLines
  set ls := ((splitLines cs).map trimChars).filter (fun l => !l.isEmpty)
    with hls
  have hnl : ∀ l ∈ ls, '\n' ∉ l := by
    intro l hl
    have h1 := (List.mem_filter.mp hl).1
    rcases List.mem_map.mp h1 with ⟨m, hm, rfl⟩
    intro hcn
    exact no_newline_mem_splitLines hm (mem_trimChars hcn)
  have htrim : ∀ l ∈ ls, trimChars l = l := by
    intro l hl
    have h1 := (List.mem_filter.mp hl).1
    rcases List.mem_map.mp h1 with ⟨m, hm, rfl⟩
    exact trimChars_idem m
  have hmap : ∀ (ms : List (List Char)), (∀ l ∈ ms, trimChars l = l) →
      ms.map trimChars = ms := by
    intro ms
    induction ms with
    | nil => intro _; rfl
    | cons a t iht =>
      intro hp
      rw [List.map_cons, hp a (List.mem_cons_self _ _),
        iht (fun x hx => hp x (List.mem_cons_of_mem a hx))]
  by_cases hcase : ls = []
  · rw [hcase]
    rfl
  · rw [splitLines_joinLines hcase hnl, hmap ls htrim,
      List.filter_eq_self.mpr (fun a ha => by
        have h2 := (List.mem_filter.mp ha).2
        exact h2)]

/-- The stripped text never contains `<` or `>`. -/
theorem strip_html_tags_no_tag_chars (s : String) :
    '<' ∉ (strip_html_tags s).data ∧ '>' ∉ (strip_html_tags s).data := by
  constructor
  · intro h
    rcases mem_cleanLines h with h1 | h1
    · exact absurd h1 (by decide)
    · exact (removeTags_no_tag_chars s.data false).1 h1
  · intro h
    rcases mem_cleanLines h with h1 | h1
    · exact absurd h1 (by decide)
    · exact (removeTags_no_tag_chars s.data false).2 h1

/-- C9: the embedded strip_html_tags maps the documented example
`"<b>x</b>\n\n<i>y</i>"` to `"x\ny"`; on every string without `<` or
`>` it performs no removal beyond the whitespace cleanup (identity
modulo per-line trimming and blank-line dropping); and on such strings
it is idempotent. -/
theorem strip_html_tags_example_plain_idem (s : String)
    (h1 : '<' ∉ s.data) (h2 : '>' ∉ s.data) :
    strip_html_tags "<b>x</b>\n\n<i>y</i>" = "x\ny"
      ∧ strip_html_tags s = String.mk (cleanLines s.data)
      ∧ strip_html_tags (strip_html_tags s) = strip_html_tags s := by
  refine ⟨by decide, ?_, ?_⟩
  · unfold strip_html_tags
    rw [removeTags_of_no_tags h1 h2]
  · have hout := strip_html_tags_no_tag_chars s
    show String.mk (cleanLines (removeTags (strip_html_tags s).data false))
      = strip_html_tags s
    rw [removeTags_of_no_tags hout.1 hout.2]
    show String.mk (cleanLines (cleanLines (removeTags s.data false)))
      = strip_html_tags s
    rw [cleanLines_idem]
    rfl

/-- Witness for C9 at the concrete plain string "x\ny": it has no tag
characters, and the three conjuncts hold there. -/
theorem strip_html_tags_example_plain_idem_witness :
    ('<' ∉ "x\ny".data ∧ '>' ∉ "x\ny".data)
      ∧ strip_html_tags "<b>x</b>\n\n<i>y</i>" = "x\ny"
      ∧ strip_html_tags "x\ny" = String.mk (cleanLines "x\ny".data)
      ∧ strip_html_tags (strip_html_tags "x\ny") = strip_html_tags "x\ny" := by
  refine ⟨⟨by decide, by decide⟩, ?_⟩
  have h := strip_html_tags_example_plain_idem "x\ny" (by decide) (by decide)
  exact ⟨h.1, h.2.1, h.2.2⟩
